import Mathlib

/-!
Shallow embedding of the answer-analysis engine of this repository
(`src/backend/agents_ai/src/agents_ai/main.py`): the keyword resolver,
the scorer, the feedback selector inside `analyze_student_answer`
(lines 483-623), and the batch endpoint `analyze_answers` (lines 434-481).

Modelling conventions:
- Python strings are Lean `String`s; `needle in haystack` is contiguous
  substring containment; `str.lower()` is `String.toLower`;
  `str.strip()` is `String.trim`; `str.split()` splits on whitespace runs
  and drops empty tokens.
- Python ints are `Nat` (all quantities here are non-negative);
  `max(0, x - 30)` is Lean's truncated `Nat` subtraction.
- `int(match_ratio * 100)` (truncation of a non-negative float) is
  modelled as exact integer floor, i.e. `Nat` division
  `(matches * 100) / n`.  CPython's double arithmetic agrees with the
  exact floor for every keyword-set size `n < 50` (checked exhaustively),
  which covers every fixed topic keyword list (sizes 5-7); it can differ
  by 1 only for generic-fallback sets of 50 or more distinct tokens.
- The Python `set` used by the generic fallback is modelled as a
  deduplicated list (`List.dedup`); only membership and cardinality of
  that set are ever consumed.
- The short-circuit return for empty answers omits the
  `matched_keywords` / `expected_keywords_count` dict keys, so those
  fields are `Option Nat` (`none` = key absent).
- A second translation, `analyze_student_answer_opt`, keeps Python's
  division `keyword_matches / len(expected_keywords)` as a fallible
  operation (`pyDiv`, `none` on division by zero) to state totality:
  it always succeeds and agrees with the total function.
-/

namespace AgentsAI

/-- Contiguous-run containment on char lists: `needle` occurs contiguously. -/
def pyInChars (needle : List Char) : List Char → Bool
  | [] => needle.isEmpty
  | h :: t => needle.isPrefixOf (h :: t) || pyInChars needle t

/-- Python's `needle in haystack` for strings: contiguous substring test. -/
def substrOf (needle haystack : String) : Bool :=
  pyInChars needle.toList haystack.toList

/-- Python's `str.lower()` (ASCII letters; the repository's keyword tables
and messages are all ASCII). -/
def pyLower (s : String) : String :=
  String.mk (s.data.map Char.toLower)

/-- Python's `str.strip()` : drop leading and trailing whitespace. -/
def pyTrim (s : String) : String :=
  String.mk (((s.data.dropWhile Char.isWhitespace).reverse.dropWhile
    Char.isWhitespace).reverse)

/-- Accumulating splitter behind `pySplit`: whitespace runs separate tokens,
empty tokens are never produced. -/
def splitWsAux : List Char → List Char → List String
  | [], acc => if acc.isEmpty then [] else [String.mk acc.reverse]
  | c :: rest, acc =>
    if c.isWhitespace then
      if acc.isEmpty then splitWsAux rest []
      else String.mk acc.reverse :: splitWsAux rest []
    else splitWsAux rest (c :: acc)

/-- Python's `str.split()` : split on whitespace runs, dropping empty tokens. -/
def pySplit (s : String) : List String :=
  splitWsAux s.data []

/-- The fixed stopword list of the generic fallback (main.py line 573). -/
def stopwords : List String :=
  ["what", "explain", "describe", "discuss", "how", "when", "where",
   "which", "this", "that", "these", "those"]

/-- Generic-fallback key-term extraction (main.py lines 565-576).
Lecture-title tokens are kept whenever their length exceeds 3; question
tokens must additionally avoid the stopword list.  The Python `set` is a
deduplicated list here. -/
def genericKeyTerms (lecture_lower question_lower : String) : List String :=
  let lterms := (pySplit lecture_lower).filter (fun t => 3 < t.length)
  let qterms := (pySplit question_lower).filter
    (fun t => 3 < t.length && !(stopwords.contains t))
  (lterms ++ qterms).dedup

/-- Keyword resolution (main.py lines 503-576): the four topic branches,
each with first-match-wins sub-patterns, then the generic fallback. -/
def expectedKeywords (question lecture_title course_name : String) : List String :=
  let question_lower := pyLower question
  let lecture_lower := pyLower lecture_title
  let course_lower := pyLower course_name
  if substrOf "python" question_lower || substrOf "python" lecture_lower then
    if substrOf "feature" question_lower || substrOf "popular" question_lower then
      ["readability", "easy", "simple", "libraries", "versatile", "interpreted"]
    else if substrOf "variable" question_lower then
      ["dynamic", "typing", "declaration", "assignment", "type"]
    else if substrOf "list" question_lower && substrOf "tuple" question_lower then
      ["mutable", "immutable", "parentheses", "brackets", "modify"]
    else if substrOf "module" question_lower || substrOf "package" question_lower then
      ["import", "organization", "reuse", "namespace", "library"]
    else if substrOf "exception" question_lower then
      ["try", "except", "catch", "handle", "error", "finally"]
    else []
  else if substrOf "machine learning" question_lower
      || substrOf "machine learning" lecture_lower
      || substrOf "machine learning" course_lower then
    if substrOf "differ" question_lower || substrOf "traditional" question_lower then
      ["data", "patterns", "algorithm", "explicit", "programming", "learn"]
    else if substrOf "supervised" question_lower && substrOf "unsupervised" question_lower then
      ["labeled", "unlabeled", "target", "classification", "clustering"]
    else if substrOf "training" question_lower && substrOf "test" question_lower then
      ["generalization", "validation", "overfitting", "performance", "evaluate"]
    else if substrOf "overfitting" question_lower then
      ["regularization", "validation", "generalize", "complex", "flexible"]
    else if substrOf "evaluation" question_lower || substrOf "metric" question_lower then
      ["accuracy", "precision", "recall", "f1", "auc", "roc"]
    else []
  else if substrOf "neural" question_lower
      || substrOf "deep learning" lecture_lower
      || substrOf "deep learning" course_lower then
    if substrOf "basic structure" question_lower || substrOf "structure" question_lower then
      ["input", "hidden", "output", "layer", "weight", "bias", "neuron"]
    else if substrOf "activation" question_lower then
      ["relu", "sigmoid", "tanh", "non-linear", "function"]
    else if substrOf "cnn" question_lower || substrOf "convolutional" question_lower then
      ["filter", "kernel", "convolution", "pooling", "feature", "image"]
    else if substrOf "backpropagation" question_lower then
      ["gradient", "descent", "error", "weight", "update", "learning"]
    else if substrOf "transfer" question_lower then
      ["pretrained", "model", "feature", "extraction", "fine-tuning"]
    else []
  else if substrOf "data" question_lower
      || substrOf "analytics" lecture_lower
      || substrOf "analytics" course_lower then
    if substrOf "workflow" question_lower || substrOf "steps" question_lower then
      ["collection", "cleaning", "exploration", "analysis", "visualization", "interpretation"]
    else if substrOf "descriptive" question_lower && substrOf "inferential" question_lower then
      ["summarize", "population", "sample", "hypothesis", "testing", "inference"]
    else if substrOf "missing" question_lower then
      ["imputation", "deletion", "mean", "median", "mode", "regression"]
    else if substrOf "feature" question_lower && substrOf "engineering" question_lower then
      ["transformation", "selection", "creation", "normalization", "scaling"]
    else if substrOf "visualization" question_lower then
      ["chart", "graph", "plot", "dashboard", "histogram", "scatter"]
    else []
  else
    genericKeyTerms lecture_lower question_lower

/-- Matched-keyword count `sum(1 for keyword in expected_keywords if keyword in answer_lower)`
(main.py line 579). -/
def keywordMatches (expected : List String) (answer_lower : String) : Nat :=
  expected.countP (fun keyword => substrOf keyword answer_lower)

/-- Length flag `length_adequate = len(answer) >= min_length` with `min_length = 50`
(main.py lines 582-583).  Note: the RAW answer length, not the trimmed one. -/
def length_adequate (answer : String) : Bool :=
  decide (50 ≤ answer.length)

/-- Feedback messages (main.py lines 495, 605-613). -/
def noAnswerMsg : String :=
  "No answer provided. Please try to answer the question."

def tooBriefMsg : String :=
  "Your answer is too brief. Please provide a more detailed explanation."

def excellentMsg : String :=
  "Excellent answer! You've covered all the key concepts thoroughly."

def goodMsg : String :=
  "Good answer. You've addressed most of the important points."

def partialMsg : String :=
  "Partial answer. You've mentioned some relevant concepts, but missed others."

def improveMsg : String :=
  "Your answer needs improvement. Try to include more specific details about key concepts."

/-- Feedback selection (main.py lines 603-613): first matching rule wins;
the length check dominates. -/
def feedbackFor (score : Nat) (la : Bool) : String :=
  if !la then tooBriefMsg
  else if 90 ≤ score then excellentMsg
  else if 70 ≤ score then goodMsg
  else if 50 ≤ score then partialMsg
  else improveMsg

/-- Result of one answer analysis (the dict returned by
`analyze_student_answer`).  The two count fields are absent from the
empty-answer short-circuit dict, hence `Option Nat`. -/
structure AnalysisResult where
  is_correct : Bool
  score : Nat
  feedback : String
  question : String
  answer : String
  matched_keywords : Option Nat
  expected_keywords_count : Option Nat
  deriving Repr, DecidableEq

/-- The analysis function `analyze_student_answer` (main.py lines 483-623). -/
def analyze_student_answer (question answer lecture_title course_name : String) :
    AnalysisResult :=
  if pyTrim answer = "" then
    { is_correct := false
      score := 0
      feedback := noAnswerMsg
      question := question
      answer := answer
      matched_keywords := none
      expected_keywords_count := none }
  else
    let answer_lower := pyLower answer
    let expected := expectedKeywords question lecture_title course_name
    let keyword_matches := keywordMatches expected answer_lower
    let la := length_adequate answer
    let score :=
      if expected.isEmpty then
        if la then 70 else 30
      else
        let base := min 100 (max 0 (keyword_matches * 100 / expected.length))
        if la then base else base - 30
    let is_correct :=
      if expected.isEmpty then la else decide (60 ≤ score)
    { is_correct := is_correct
      score := score
      feedback := feedbackFor score la
      question := question
      answer := answer
      matched_keywords := some keyword_matches
      expected_keywords_count := some expected.length }

/-- Python's `/` on naturals as a fallible operation: `none` models the
`ZeroDivisionError` that a zero divisor would raise. -/
def pyDiv (a b : Nat) : Option ℚ :=
  if b = 0 then none else some ((a : ℚ) / b)

/-- A second translation of `analyze_student_answer`, keeping the division
`keyword_matches / len(expected_keywords) if expected_keywords else 0`
(main.py line 594) fallible, and `int(match_ratio * 100)` as the floor of
the rational ratio.  Used to state that the engine never raises. -/
def analyze_student_answer_opt (question answer lecture_title course_name : String) :
    Option AnalysisResult :=
  if pyTrim answer = "" then
    some
      { is_correct := false
        score := 0
        feedback := noAnswerMsg
        question := question
        answer := answer
        matched_keywords := none
        expected_keywords_count := none }
  else
    let answer_lower := pyLower answer
    let expected := expectedKeywords question lecture_title course_name
    let keyword_matches := keywordMatches expected answer_lower
    let la := length_adequate answer
    if expected.isEmpty then
      some
        { is_correct := la
          score := if la then 70 else 30
          feedback := feedbackFor (if la then 70 else 30) la
          question := question
          answer := answer
          matched_keywords := some keyword_matches
          expected_keywords_count := some expected.length }
    else
      match (if !expected.isEmpty then pyDiv keyword_matches expected.length
             else some 0) with
      | none => none
      | some match_ratio =>
        let base := min 100 (max 0 (Nat.floor (match_ratio * 100)))
        let score := if la then base else base - 30
        some
          { is_correct := decide (60 ≤ score)
            score := score
            feedback := feedbackFor score la
            question := question
            answer := answer
            matched_keywords := some keyword_matches
            expected_keywords_count := some expected.length }

/-- Request body of `POST /analyze-answers` (main.py lines 428-432). -/
structure AnswerRequest where
  lecture_title : String
  course_name : String
  questions : List String
  answers : List String

/-- JSON response of `POST /analyze-answers`: status code plus body fields.
`overall_score` is `none` on the validation-error path (the error body has
no such key); `message` is `none` on success. -/
structure AnalyzeResponse where
  status_code : Nat
  status : String
  message : Option String
  overall_score : Option ℚ
  results : List AnalysisResult

/-- The endpoint body `analyze_answers` (main.py lines 434-468): length validation, per-pair
analysis in input order, overall score.  The enclosing `try/except` never
fires because the body is total (see `analyze_never_raises`), so the 500
path is not modelled. -/
def analyze_answers (request : AnswerRequest) : AnalyzeResponse :=
  if request.questions.length ≠ request.answers.length then
    { status_code := 400
      status := "error"
      message := some "Number of questions and answers must match"
      overall_score := none
      results := [] }
  else
    let results := List.zipWith
      (fun question answer =>
        analyze_student_answer question answer request.lecture_title request.course_name)
      request.questions request.answers
    let correct_count := results.countP (fun result => result.is_correct)
    let total_count := results.length
    let overall_score : ℚ :=
      if 0 < total_count then ((correct_count : ℚ) / total_count) * 100 else 0
    { status_code := 200
      status := "success"
      message := none
      overall_score := some overall_score
      results := results }


/-- One of the four topic branches of `expectedKeywords` is entered but none
of that branch's sub-patterns matches; the guards replicate the tests of
main.py lines 513-562 branch by branch. -/
def topicMatchedNoSub (question lecture_title course_name : String) : Bool :=
  let question_lower := pyLower question
  let lecture_lower := pyLower lecture_title
  let course_lower := pyLower course_name
  if substrOf "python" question_lower || substrOf "python" lecture_lower then
    !(substrOf "feature" question_lower || substrOf "popular" question_lower) &&
    !(substrOf "variable" question_lower) &&
    !(substrOf "list" question_lower && substrOf "tuple" question_lower) &&
    !(substrOf "module" question_lower || substrOf "package" question_lower) &&
    !(substrOf "exception" question_lower)
  else if substrOf "machine learning" question_lower
      || substrOf "machine learning" lecture_lower
      || substrOf "machine learning" course_lower then
    !(substrOf "differ" question_lower || substrOf "traditional" question_lower) &&
    !(substrOf "supervised" question_lower && substrOf "unsupervised" question_lower) &&
    !(substrOf "training" question_lower && substrOf "test" question_lower) &&
    !(substrOf "overfitting" question_lower) &&
    !(substrOf "evaluation" question_lower || substrOf "metric" question_lower)
  else if substrOf "neural" question_lower
      || substrOf "deep learning" lecture_lower
      || substrOf "deep learning" course_lower then
    !(substrOf "basic structure" question_lower || substrOf "structure" question_lower) &&
    !(substrOf "activation" question_lower) &&
    !(substrOf "cnn" question_lower || substrOf "convolutional" question_lower) &&
    !(substrOf "backpropagation" question_lower) &&
    !(substrOf "transfer" question_lower)
  else if substrOf "data" question_lower
      || substrOf "analytics" lecture_lower
      || substrOf "analytics" course_lower then
    !(substrOf "workflow" question_lower || substrOf "steps" question_lower) &&
    !(substrOf "descriptive" question_lower && substrOf "inferential" question_lower) &&
    !(substrOf "missing" question_lower) &&
    !(substrOf "feature" question_lower && substrOf "engineering" question_lower) &&
    !(substrOf "visualization" question_lower)
  else false

/-! ## Helper lemmas -/

/-- Truncation `int(match_ratio * 100)` over exact rationals agrees with `Nat` division:
`⌊(m / n) * 100⌋ = (m * 100) / n`. -/
lemma floor_ratio_mul_hundred (m n : Nat) :
    Nat.floor ((m : ℚ) / n * 100) = m * 100 / n := by
  rw [div_mul_eq_mul_div]
  rw [show ((m : ℚ) * 100) = ((m * 100 : ℕ) : ℚ) by push_cast; ring]
  rw [Nat.floor_div_nat, Nat.floor_natCast]

/-- The feedback selector never returns the too-brief message once the
length flag is set. -/
lemma feedbackFor_true_ne_brief (s : Nat) : feedbackFor s true ≠ tooBriefMsg := by
  unfold feedbackFor
  simp only [Bool.not_true, Bool.false_eq_true, if_false]
  split_ifs <;> decide

/-! ## Theorems for the claims -/

/-- Claim C3 (amended): on an empty or whitespace-only answer,
`analyze_student_answer` short-circuits to score 0, `is_correct = false`,
the no-answer feedback, echoing the inputs, with the matched/expected
count fields absent from the returned dict. -/
theorem empty_answer_short_circuit (q a l c : String) (h : pyTrim a = "") :
    analyze_student_answer q a l c =
      { is_correct := false
        score := 0
        feedback := noAnswerMsg
        question := q
        answer := a
        matched_keywords := none
        expected_keywords_count := none } := by
  unfold analyze_student_answer
  rw [if_pos h]

theorem empty_answer_short_circuit_witness :
    pyTrim "  " = "" ∧
    analyze_student_answer "q" "  " "l" "c" =
      { is_correct := false
        score := 0
        feedback := noAnswerMsg
        question := "q"
        answer := "  "
        matched_keywords := none
        expected_keywords_count := none } :=
  ⟨by decide, empty_answer_short_circuit "q" "  " "l" "c" (by decide)⟩

/-- Claim C3 counterexample: the short-circuit dict carries no
`matched_keywords` entry at all, so its matched-keyword count is not 0 —
the field is absent (`none`), not `some 0`. -/
theorem empty_answer_omits_matched_count :
    (analyze_student_answer "q" " " "l" "c").matched_keywords = none ∧
    (analyze_student_answer "q" " " "l" "c").matched_keywords ≠ some 0 ∧
    (analyze_student_answer "q" " " "l" "c").expected_keywords_count = none := by
  refine ⟨by decide, by decide, by decide⟩

/-- Claim C6: when the question list and the answer list differ in length,
`analyze_answers` answers HTTP 400 with an empty result list. -/
theorem analyze_answers_length_mismatch (req : AnswerRequest)
    (h : req.questions.length ≠ req.answers.length) :
    (analyze_answers req).status_code = 400 ∧
    (analyze_answers req).status = "error" ∧
    (analyze_answers req).results = [] := by
  unfold analyze_answers
  rw [if_pos h]
  exact ⟨rfl, rfl, rfl⟩

theorem analyze_answers_length_mismatch_witness :
    (analyze_answers ⟨"L", "C", ["q1", "q2"], ["a1"]⟩).status_code = 400 ∧
    (analyze_answers ⟨"L", "C", ["q1", "q2"], ["a1"]⟩).status = "error" ∧
    (analyze_answers ⟨"L", "C", ["q1", "q2"], ["a1"]⟩).results = [] :=
  analyze_answers_length_mismatch ⟨"L", "C", ["q1", "q2"], ["a1"]⟩ (by decide)

/-- Claim C10: on every input the analysis score lies in `[0, 100]` and the
correctness verdict holds exactly when the score reaches 60, across all
three branches of `analyze_student_answer`. -/
theorem score_bounds_and_correct_threshold (q a l c : String) :
    (analyze_student_answer q a l c).score ≤ 100 ∧
    ((analyze_student_answer q a l c).is_correct = true ↔
      60 ≤ (analyze_student_answer q a l c).score) := by
  unfold analyze_student_answer
  by_cases h : pyTrim a = ""
  · rw [if_pos h]
    simp
  · rw [if_neg h]
    by_cases hE : (expectedKeywords q l c).isEmpty
    · by_cases hla : length_adequate a <;>
        simp [hE, hla]
    · by_cases hla : length_adequate a <;>
        · simp only [hE, Bool.false_eq_true, if_false, hla, if_true,
            Bool.true_eq_false, decide_eq_true_eq]
          constructor
          · omega
          · trivial

/-- Claim C9: the engine is total.  The translation that keeps Python division
fallible always succeeds and agrees with the total translation: no input,
degenerate ones included, can reach a raising operation. -/
theorem analyze_never_raises (q a l c : String) :
    analyze_student_answer_opt q a l c = some (analyze_student_answer q a l c) := by
  unfold analyze_student_answer_opt analyze_student_answer
  by_cases h : pyTrim a = ""
  · rw [if_pos h, if_pos h]
  · rw [if_neg h, if_neg h]
    by_cases hE : (expectedKeywords q l c).isEmpty
    · simp only [hE, if_true]
    · have hn : (expectedKeywords q l c).length ≠ 0 := by
        simpa [List.isEmpty_iff, List.length_eq_zero] using hE
      simp only [hE, Bool.false_eq_true, if_false, Bool.not_false, if_true,
        pyDiv, hn, floor_ratio_mul_hundred]

/-- Claim C1 counterexample: a python "feature" question with a length-adequate
answer matching exactly one of the six expected keywords yields score 16
(truncation of 100/6), while the claimed `clamp(round(matchRatio*100))`
is 17. -/
theorem score_truncates_not_rounds :
    (analyze_student_answer "what feature of python"
      "it is easy to use for many small tasks in daily coding work" "x" "x").score = 16 ∧
    (analyze_student_answer "what feature of python"
      "it is easy to use for many small tasks in daily coding work" "x" "x").matched_keywords
      = some 1 ∧
    (analyze_student_answer "what feature of python"
      "it is easy to use for many small tasks in daily coding work" "x"
      "x").expected_keywords_count = some 6 ∧
    min 100 (max 0 (round ((1 : ℚ) / 6 * 100))) = 17 := by
  refine ⟨by decide, by decide, by decide, ?_⟩
  norm_num [round_eq]

/-- Claim C1 (amended): on a non-empty answer with a non-empty resolved keyword
set, the score is the TRUNCATED (floored, not rounded) percentage of
matched keywords, clamped to `[0, 100]`, minus 30 (floored at 0) when the
raw answer length is below 50; correctness holds exactly at score 60. -/
theorem keyword_branch_score_spec (q a l c : String)
    (h : pyTrim a ≠ "") (hk : expectedKeywords q l c ≠ []) :
    (analyze_student_answer q a l c).score =
      (if 50 ≤ a.length then
        min 100 (max 0 (Nat.floor
          ((keywordMatches (expectedKeywords q l c) (pyLower a) : ℚ) /
            (expectedKeywords q l c).length * 100)))
      else
        min 100 (max 0 (Nat.floor
          ((keywordMatches (expectedKeywords q l c) (pyLower a) : ℚ) /
            (expectedKeywords q l c).length * 100))) - 30) ∧
    ((analyze_student_answer q a l c).is_correct = true ↔
      60 ≤ (analyze_student_answer q a l c).score) := by
  have hE : (expectedKeywords q l c).isEmpty = false := by
    simpa [List.isEmpty_iff] using hk
  unfold analyze_student_answer
  rw [if_neg h]
  simp only [hE, Bool.false_eq_true, if_false, floor_ratio_mul_hundred,
    length_adequate, decide_eq_true_eq]
  constructor <;> trivial

theorem keyword_branch_score_spec_witness :
    (analyze_student_answer "what feature of python"
      "it is easy to use for many small tasks in daily coding work" "x" "x").score =
      (if 50 ≤ ("it is easy to use for many small tasks in daily coding work" : String).length
       then
        min 100 (max 0 (Nat.floor
          ((keywordMatches
              (expectedKeywords "what feature of python" "x" "x")
              (pyLower "it is easy to use for many small tasks in daily coding work") : ℚ) /
            (expectedKeywords "what feature of python" "x" "x").length * 100)))
      else
        min 100 (max 0 (Nat.floor
          ((keywordMatches
              (expectedKeywords "what feature of python" "x" "x")
              (pyLower "it is easy to use for many small tasks in daily coding work") : ℚ) /
            (expectedKeywords "what feature of python" "x" "x").length * 100))) - 30) :=
  (keyword_branch_score_spec "what feature of python"
    "it is easy to use for many small tasks in daily coding work" "x" "x"
    (by decide) (by decide)).1

/-- Claim C2 counterexample: an answer of raw length 50 whose trimmed length is 1
("a" followed by 49 spaces) sets the length flag, and the analysis does not
produce the too-brief feedback — the flag is computed from the RAW length,
not from the trimmed length the claim states. -/
theorem length_flag_uses_raw_length :
    length_adequate (String.mk ('a' :: List.replicate 49 ' ')) = true ∧
    (pyTrim (String.mk ('a' :: List.replicate 49 ' '))).length = 1 ∧
    (analyze_student_answer "ijkl" (String.mk ('a' :: List.replicate 49 ' '))
      "abcd efgh" "x").feedback ≠ tooBriefMsg := by
  refine ⟨by decide, by decide, by decide⟩

/-- Claim C2 (amended): the length-adequacy flag is the RAW (untrimmed) character
length reaching 50; observably, a non-empty answer receives the too-brief
feedback exactly when its raw length is below 50. -/
theorem too_brief_iff_raw_length_short (q a l c : String) (h : pyTrim a ≠ "") :
    (length_adequate a = true ↔ 50 ≤ a.length) ∧
    ((analyze_student_answer q a l c).feedback = tooBriefMsg ↔ a.length < 50) := by
  refine ⟨by simp [length_adequate], ?_⟩
  unfold analyze_student_answer
  rw [if_neg h]
  by_cases hla : 50 ≤ a.length
  · have hflag : length_adequate a = true := by simp [length_adequate, hla]
    simp only [hflag, if_true]
    by_cases hE : (expectedKeywords q l c).isEmpty <;>
      simp [hE, feedbackFor_true_ne_brief, Nat.not_lt.mpr hla]
  · have hflag : length_adequate a = false := by
      simp [length_adequate, Nat.lt_of_not_le hla]
    simp only [hflag, Bool.false_eq_true, if_false]
    by_cases hE : (expectedKeywords q l c).isEmpty <;>
      simp [hE, feedbackFor, Nat.lt_of_not_le hla]

theorem too_brief_iff_raw_length_short_witness :
    (length_adequate "idk" = true ↔ 50 ≤ ("idk" : String).length) ∧
    ((analyze_student_answer "what is machine learning and how does it differ from traditional programming?"
        "idk" "Intro to ML" "CS101").feedback = tooBriefMsg ↔ ("idk" : String).length < 50) :=
  too_brief_iff_raw_length_short
    "what is machine learning and how does it differ from traditional programming?"
    "idk" "Intro to ML" "CS101" (by decide)

/-- Claim C8: for every non-empty answer the feedback is the pure selector
`feedbackFor` applied to the final score and the length flag, and the
selector follows the claimed first-match order: missing length dominates,
then the 90/70/50 score tiers. -/
theorem feedback_selection (q a l c : String) (h : pyTrim a ≠ "") :
    (analyze_student_answer q a l c).feedback =
      feedbackFor (analyze_student_answer q a l c).score (length_adequate a) ∧
    (∀ s : Nat, feedbackFor s false = tooBriefMsg) ∧
    (∀ s : Nat, 90 ≤ s → feedbackFor s true = excellentMsg) ∧
    (∀ s : Nat, 70 ≤ s → s < 90 → feedbackFor s true = goodMsg) ∧
    (∀ s : Nat, 50 ≤ s → s < 70 → feedbackFor s true = partialMsg) ∧
    (∀ s : Nat, s < 50 → feedbackFor s true = improveMsg) := by
  refine ⟨?_, fun s => rfl, fun s hs => ?_, fun s h1 h2 => ?_, fun s h1 h2 => ?_,
    fun s h1 => ?_⟩
  · unfold analyze_student_answer
    rw [if_neg h]
  · simp only [feedbackFor, Bool.not_true, Bool.false_eq_true, if_false]
    rw [if_pos hs]
  · simp only [feedbackFor, Bool.not_true, Bool.false_eq_true, if_false]
    rw [if_neg (by omega), if_pos h1]
  · simp only [feedbackFor, Bool.not_true, Bool.false_eq_true, if_false]
    rw [if_neg (by omega), if_neg (by omega), if_pos h1]
  · simp only [feedbackFor, Bool.not_true, Bool.false_eq_true, if_false]
    rw [if_neg (by omega), if_neg (by omega), if_neg (by omega)]

theorem feedback_selection_witness :
    (analyze_student_answer "q" "idk" "l" "c").feedback =
      feedbackFor (analyze_student_answer "q" "idk" "l" "c").score
        (length_adequate "idk") :=
  (feedback_selection "q" "idk" "l" "c" (by decide)).1

/-- Claim C4 counterexample: inside the python topic branch with no matching
sub-pattern, the answer "b" followed by 49 spaces (raw length 50, trimmed
length 1) scores 70 with a correct verdict, although its trimmed length is
far below 50 — the branch keys on raw, not trimmed, length adequacy. -/
theorem topic_no_subpattern_raw_length :
    topicMatchedNoSub "python stuff" "x" "y" = true ∧
    (analyze_student_answer "python stuff" (String.mk ('b' :: List.replicate 49 ' '))
      "x" "y").score = 70 ∧
    (analyze_student_answer "python stuff" (String.mk ('b' :: List.replicate 49 ' '))
      "x" "y").is_correct = true ∧
    (pyTrim (String.mk ('b' :: List.replicate 49 ' '))).length = 1 := by
  refine ⟨by decide, by decide, by decide, by decide⟩

/-- Claim C4 (amended): when a topic branch matches but none of its sub-patterns
does, the resolved keyword set is empty (no generic fallback), and a
non-empty answer then scores 70 and is judged correct exactly when its RAW
length reaches 50, else 30 and incorrect. -/
theorem topic_no_subpattern_empty_keywords (q a l c : String)
    (ht : topicMatchedNoSub q l c = true) (h : pyTrim a ≠ "") :
    expectedKeywords q l c = [] ∧
    (analyze_student_answer q a l c).score = (if 50 ≤ a.length then 70 else 30) ∧
    (analyze_student_answer q a l c).is_correct = decide (50 ≤ a.length) := by
  have hk : expectedKeywords q l c = [] := by
    unfold topicMatchedNoSub at ht
    unfold expectedKeywords
    simp only [] at ht ⊢
    by_cases h1 : (substrOf "python" (pyLower q) || substrOf "python" (pyLower l)) = true
    · rw [if_pos h1] at ht ⊢
      simp only [Bool.and_eq_true, Bool.not_eq_true'] at ht
      obtain ⟨⟨⟨⟨a1, a2⟩, a3⟩, a4⟩, a5⟩ := ht
      simp only [a1, a2, a3, a4, a5, Bool.false_eq_true, if_false]
    · rw [if_neg h1] at ht ⊢
      by_cases h2 : (substrOf "machine learning" (pyLower q)
          || substrOf "machine learning" (pyLower l)
          || substrOf "machine learning" (pyLower c)) = true
      · rw [if_pos h2] at ht ⊢
        simp only [Bool.and_eq_true, Bool.not_eq_true'] at ht
        obtain ⟨⟨⟨⟨a1, a2⟩, a3⟩, a4⟩, a5⟩ := ht
        simp only [a1, a2, a3, a4, a5, Bool.false_eq_true, if_false]
      · rw [if_neg h2] at ht ⊢
        by_cases h3 : (substrOf "neural" (pyLower q)
            || substrOf "deep learning" (pyLower l)
            || substrOf "deep learning" (pyLower c)) = true
        · rw [if_pos h3] at ht ⊢
          simp only [Bool.and_eq_true, Bool.not_eq_true'] at ht
          obtain ⟨⟨⟨⟨a1, a2⟩, a3⟩, a4⟩, a5⟩ := ht
          simp only [a1, a2, a3, a4, a5, Bool.false_eq_true, if_false]
        · rw [if_neg h3] at ht ⊢
          by_cases h4 : (substrOf "data" (pyLower q)
              || substrOf "analytics" (pyLower l)
              || substrOf "analytics" (pyLower c)) = true
          · rw [if_pos h4] at ht ⊢
            simp only [Bool.and_eq_true, Bool.not_eq_true'] at ht
            obtain ⟨⟨⟨⟨a1, a2⟩, a3⟩, a4⟩, a5⟩ := ht
            simp only [a1, a2, a3, a4, a5, Bool.false_eq_true, if_false]
          · rw [if_neg h4] at ht
            exact absurd ht (by simp)
  refine ⟨hk, ?_, ?_⟩ <;>
  · unfold analyze_student_answer
    rw [if_neg h]
    simp [hk, length_adequate]

theorem topic_no_subpattern_empty_keywords_witness :
    expectedKeywords "python stuff" "x" "y" = [] ∧
    (analyze_student_answer "python stuff" "b" "x" "y").score =
      (if 50 ≤ ("b" : String).length then 70 else 30) ∧
    (analyze_student_answer "python stuff" "b" "x" "y").is_correct =
      decide (50 ≤ ("b" : String).length) :=
  topic_no_subpattern_empty_keywords "python stuff" "b" "x" "y"
    (by decide) (by decide)

/-- Claim C5: with equal-length inputs the batch analyzer succeeds, produces one
result per pair in input order (the i-th result analyzes the i-th question
against the i-th answer), and the overall score is `100 * correct / total`
for a positive total, and 0 for an empty batch. -/
theorem analyze_answers_pairing_and_overall (req : AnswerRequest)
    (h : req.questions.length = req.answers.length) :
    (analyze_answers req).status_code = 200 ∧
    (analyze_answers req).results.length = req.questions.length ∧
    (∀ i (h1 : i < req.questions.length) (h2 : i < req.answers.length)
        (hr : i < (analyze_answers req).results.length),
      (analyze_answers req).results.get ⟨i, hr⟩ =
        analyze_student_answer (req.questions.get ⟨i, h1⟩) (req.answers.get ⟨i, h2⟩)
          req.lecture_title req.course_name) ∧
    ((analyze_answers req).results.length = 0 →
      (analyze_answers req).overall_score = some 0) ∧
    (0 < (analyze_answers req).results.length →
      (analyze_answers req).overall_score =
        some (100 * ((analyze_answers req).results.countP
            (fun r => r.is_correct) : ℚ) /
          (analyze_answers req).results.length)) := by
  unfold analyze_answers
  rw [if_neg (by omega)]
  refine ⟨rfl, ?_, ?_, ?_, ?_⟩
  · simp [List.length_zipWith, h]
  · intro i h1 h2 hr
    simp [List.getElem_zipWith]
  · intro hz
    simp only [hz, lt_irrefl, if_false]
  · intro hpos
    simp only [hpos, if_true]
    congr 1
    rw [div_mul_eq_mul_div, mul_comm]

theorem analyze_answers_pairing_and_overall_witness :
    (analyze_answers ⟨"L", "C", ["q"], ["a"]⟩).status_code = 200 ∧
    (analyze_answers ⟨"L", "C", ["q"], ["a"]⟩).results.length =
      (["q"] : List String).length :=
  ⟨(analyze_answers_pairing_and_overall ⟨"L", "C", ["q"], ["a"]⟩ rfl).1,
   (analyze_answers_pairing_and_overall ⟨"L", "C", ["q"], ["a"]⟩ rfl).2.1⟩

/-- Claim C7 counterexample: with no topic matched, the lecture title "explain"
(a stopword of length 7) survives into the keyword set — the stopword
filter is applied to question tokens only, not to lecture-title tokens as
the claim states. -/
theorem lecture_stopword_included :
    expectedKeywords "hmm" "explain" "x" = ["explain"] ∧
    "explain" ∈ stopwords := by
  refine ⟨by decide, by decide⟩

/-- Claim C7 (amended): in the generic fallback the resolved set is duplicate-free
and a token belongs to it exactly when it is a lowercased lecture-title
token of length above 3 (stopwords NOT excluded there), or a lowercased
question token of length above 3 that is not a stopword. -/
theorem generic_fallback_membership (q l c : String)
    (h1 : (substrOf "python" (pyLower q) || substrOf "python" (pyLower l)) = false)
    (h2 : (substrOf "machine learning" (pyLower q)
        || substrOf "machine learning" (pyLower l)
        || substrOf "machine learning" (pyLower c)) = false)
    (h3 : (substrOf "neural" (pyLower q)
        || substrOf "deep learning" (pyLower l)
        || substrOf "deep learning" (pyLower c)) = false)
    (h4 : (substrOf "data" (pyLower q)
        || substrOf "analytics" (pyLower l)
        || substrOf "analytics" (pyLower c)) = false) :
    (expectedKeywords q l c).Nodup ∧
    ∀ t : String, t ∈ expectedKeywords q l c ↔
      ((t ∈ pySplit (pyLower l) ∧ 3 < t.length) ∨
       (t ∈ pySplit (pyLower q) ∧ 3 < t.length ∧ t ∉ stopwords)) := by
  have he : expectedKeywords q l c = genericKeyTerms (pyLower l) (pyLower q) := by
    unfold expectedKeywords
    simp only []
    rw [if_neg (by simp [h1]), if_neg (by simp [h2]), if_neg (by simp [h3]),
      if_neg (by simp [h4])]
  rw [he]
  unfold genericKeyTerms
  simp only []
  refine ⟨List.nodup_dedup _, fun t => ?_⟩
  simp [List.mem_dedup, List.mem_append, List.mem_filter, and_assoc]

theorem generic_fallback_membership_witness :
    "explain" ∈ expectedKeywords "hmm" "explain" "x" ↔
      (("explain" ∈ pySplit (pyLower "explain") ∧ 3 < ("explain" : String).length) ∨
       ("explain" ∈ pySplit (pyLower "hmm") ∧ 3 < ("explain" : String).length ∧
        "explain" ∉ stopwords)) :=
  (generic_fallback_membership "hmm" "explain" "x"
    (by decide) (by decide) (by decide) (by decide)).2 "explain"

end AgentsAI
